import Mathlib

/-!
Shallow embedding of the ExpenseTracker service (src/main.py).

Modelling conventions:
* The SQLite `expenses` table is a `Store`: a schema-object count for the
  `expenses` table, the list of rows in insertion order, and the next
  AUTOINCREMENT id.
* SQL `REAL` amounts are modelled exactly by `Int` (floating-point rounding
  is out of scope; the claims under study concern grouping, filtering and
  ordering, not float arithmetic).
* A value that the caller may pass as SQL NULL (Python `None`) is an
  `Option`; the schema's NOT NULL constraints reject `none`.
* The driver exception channel (aiosqlite raising on a failed write, a
  read-only file, a disk error, ...) is an explicit `exc : Option String`
  argument holding the exception text, `none` meaning the underlying
  operation succeeds.  The Python `except Exception` handlers become the
  `some` branches.
* SQLite compares TEXT byte-wise (memcmp); on UTF-8 data this is the
  lexicographic order on code points, modelled by `cmpChars` on `String.data`.
-/

/-! ### Lexicographic text comparison (SQLite `BETWEEN` / `ORDER BY` on TEXT) -/

def cmpChars : List Char → List Char → Ordering
  | [], [] => .eq
  | [], _ :: _ => .lt
  | _ :: _, [] => .gt
  | a :: as, b :: bs =>
    if a.toNat < b.toNat then .lt
    else if b.toNat < a.toNat then .gt
    else cmpChars as bs

def dateLe (s t : String) : Bool :=
  match cmpChars s.data t.data with
  | .gt => false
  | _ => true

def dateLt (s t : String) : Prop := cmpChars s.data t.data = Ordering.lt

/-! ### Data model (schema of `expenses`, main.py lines 55-64) -/

structure Expense where
  id : Nat
  date : String
  amount : Int
  category : String
  subcategory : String
  note : String
deriving DecidableEq

structure Store where
  tables : Nat
  rows : List Expense
  nextId : Nat
deriving DecidableEq

/-! ### init_db (main.py lines 45-77)
`CREATE TABLE IF NOT EXISTS` creates the table only when absent; the
write-access self-check inserts a test row `('2000-01-01', 0, 'test')` and
then runs `DELETE FROM expenses WHERE category = 'test'`. -/

def init_db (s : Store) : Store :=
  let s1 : Store := { s with tables := if s.tables = 0 then 1 else s.tables }
  let s2 : Store :=
    { s1 with
      rows := s1.rows ++ [⟨s1.nextId, "2000-01-01", 0, "test", "", ""⟩],
      nextId := s1.nextId + 1 }
  { s2 with rows := s2.rows.filter (fun r => !(r.category == "test")) }

/-! ### Read-only detection (main.py line 119: if "readonly" in str(e).lower()) -/

def lowerStr (s : String) : String := ⟨s.data.map Char.toLower⟩

def listStartsWith : List Char → List Char → Bool
  | [], _ => true
  | _ :: _, [] => false
  | a :: as, b :: bs => a == b && listStartsWith as bs

def listContainsSub (needle : List Char) : List Char → Bool
  | [] => listStartsWith needle []
  | c :: rest => listStartsWith needle (c :: rest) || listContainsSub needle rest

def containsReadonly (e : String) : Bool :=
  listContainsSub "readonly".data (lowerStr e).data

/-- SQLite's exception text when a write hits a read-only database file. -/
def readonlyMsg : String := "attempt to write a readonly database"

/-! ### add_expense (main.py lines 94-128) -/

inductive AddResponse where
  | success (id : Nat) (message : String)
  | error (message : String)
deriving DecidableEq

def addError (e : String) : AddResponse :=
  if containsReadonly e then
    .error "Database is in read-only mode. Check file permissions."
  else
    .error ("Database error: " ++ e)

def add_expense (s : Store) (date : Option String) (amount : Option Int)
    (category : Option String) (subcategory note : String) (exc : Option String) :
    Store × AddResponse :=
  match exc with
  | some e => (s, addError e)
  | none =>
    match date, amount, category with
    | some d, some amt, some c =>
      ({ s with
          rows := s.rows ++ [⟨s.nextId, d, amt, c, subcategory, note⟩],
          nextId := s.nextId + 1 },
       .success s.nextId "Expense added successfully")
    | none, _, _ => (s, addError "NOT NULL constraint failed: expenses.date")
    | some _, none, _ => (s, addError "NOT NULL constraint failed: expenses.amount")
    | some _, some _, none => (s, addError "NOT NULL constraint failed: expenses.category")

/-! ### list_expenses (main.py lines 138-160)
`WHERE date BETWEEN ? AND ? ORDER BY date DESC, id DESC`. -/

def inRange (a b : String) (r : Expense) : Bool := dateLe a r.date && dateLe r.date b

def rowsInRange (s : Store) (a b : String) : List Expense := s.rows.filter (inRange a b)

def expBefore (x y : Expense) : Prop :=
  dateLt y.date x.date ∨ (x.date = y.date ∧ y.id ≤ x.id)

instance : DecidableRel expBefore := fun x y => by unfold expBefore dateLt; infer_instance

def sortExpenses (l : List Expense) : List Expense := l.insertionSort expBefore

inductive ListResponse where
  | items (rows : List Expense)
  | error (message : String)
deriving DecidableEq

def list_expenses (s : Store) (start_date end_date : String) (exc : Option String) :
    ListResponse :=
  match exc with
  | some e => .error ("Error listing expenses: " ++ e)
  | none => .items (sortExpenses (rowsInRange s start_date end_date))

/-! ### summarize (main.py lines 171-204)
The statement text is built from a fixed base; `if category:` appends
" AND category = ?" and pushes the value onto the parameter list. -/

structure SummaryRow where
  category : String
  total_amount : Int
  count : Nat
deriving DecidableEq

inductive SummarizeResponse where
  | groups (rows : List SummaryRow)
  | error (message : String)
deriving DecidableEq

def categoryTruthy : Option String → Bool
  | none => false
  | some c => !(c == "")

def summarizeBase : String :=
  "\n                SELECT category,\n                       SUM(amount) AS total_amount,\n                       COUNT(*) AS count\n                FROM expenses\n                WHERE date BETWEEN ? AND ?\n            "

def categoryClause : String := " AND category = ?"

def groupOrderClause : String := " GROUP BY category ORDER BY total_amount DESC"

def summarizeStmt (start_date end_date : String) (category : Option String) :
    String × List String :=
  let qp : String × List String :=
    if categoryTruthy category then
      (summarizeBase ++ categoryClause, [start_date, end_date] ++ [category.getD ""])
    else
      (summarizeBase, [start_date, end_date])
  (qp.1 ++ groupOrderClause, qp.2)

def catFilter (category : Option String) (l : List Expense) : List Expense :=
  if categoryTruthy category then l.filter (fun r => r.category == category.getD "") else l

def groupFor (ms : List Expense) (c : String) : SummaryRow :=
  ⟨c, ((ms.filter (fun r => r.category == c)).map Expense.amount).sum,
      (ms.filter (fun r => r.category == c)).length⟩

def summaryGroups (ms : List Expense) : List SummaryRow :=
  ((ms.map Expense.category).dedup).map (groupFor ms)

def gBefore (g h : SummaryRow) : Prop := h.total_amount ≤ g.total_amount

instance : DecidableRel gBefore := fun g h => by unfold gBefore; infer_instance

def sortGroups (l : List SummaryRow) : List SummaryRow := l.insertionSort gBefore

def summarize (s : Store) (start_date end_date : String) (category : Option String)
    (exc : Option String) : SummarizeResponse :=
  match exc with
  | some e => .error ("Error summarizing expenses: " ++ e)
  | none =>
    .groups (sortGroups (summaryGroups (catFilter category (rowsInRange s start_date end_date))))

/-! ### categories resource (main.py lines 214-245) -/

inductive FsReadResult where
  | readable (contents : String)
  | missing
  | failure (message : String)
deriving DecidableEq

def default_categories : List String :=
  ["Food & Dining", "Transportation", "Shopping", "Entertainment",
   "Bills & Utilities", "Healthcare", "Travel", "Education", "Business", "Other"]

def jsonItems : List String → String
  | [] => ""
  | [x] => "    \"" ++ x ++ "\""
  | x :: y :: xs => "    \"" ++ x ++ "\",\n" ++ jsonItems (y :: xs)

def defaultCategoriesJson : String :=
  "\x7b\n  \"categories\": [\n" ++ jsonItems default_categories ++ "\n  ]\n\x7d"

def categories : FsReadResult → String
  | .readable s => s
  | .missing => defaultCategoriesJson
  | .failure e => "\x7b\"error\": \"Could not load categories: " ++ e ++ "\"\x7d"

/-! ### Order-theoretic facts about the text comparison -/

theorem char_toNat_inj {a b : Char} (h : a.toNat = b.toNat) : a = b :=
  Char.ext (UInt32.ext h)

theorem cmpChars_eq_iff : ∀ as bs : List Char, cmpChars as bs = Ordering.eq ↔ as = bs := by
  intro as
  induction as with
  | nil => intro bs; cases bs <;> simp [cmpChars]
  | cons a as ih =>
    intro bs
    cases bs with
    | nil => simp [cmpChars]
    | cons b bs =>
      simp only [cmpChars]
      by_cases h1 : a.toNat < b.toNat
      · simp only [h1, if_true]
        constructor
        · intro h; exact absurd h (by simp)
        · intro h; cases h; omega
      · by_cases h2 : b.toNat < a.toNat
        · simp only [h1, if_false, h2, if_true]
          constructor
          · intro h; exact absurd h (by simp)
          · intro h; cases h; omega
        · have hab : a = b := char_toNat_inj (by omega)
          subst hab
          simp [h1, h2, ih bs]

theorem cmpChars_swap : ∀ as bs : List Char, cmpChars bs as = (cmpChars as bs).swap := by
  intro as
  induction as with
  | nil => intro bs; cases bs <;> simp [cmpChars, Ordering.swap]
  | cons a as ih =>
    intro bs
    cases bs with
    | nil => simp [cmpChars, Ordering.swap]
    | cons b bs =>
      simp only [cmpChars]
      by_cases h1 : a.toNat < b.toNat
      · have h2 : ¬ b.toNat < a.toNat := by omega
        simp [h1, h2, Ordering.swap]
      · by_cases h2 : b.toNat < a.toNat
        · simp [h1, h2, Ordering.swap]
        · simp [h1, h2, ih bs]

theorem cmpChars_lt_trans :
    ∀ as bs cs : List Char, cmpChars as bs = Ordering.lt → cmpChars bs cs = Ordering.lt →
      cmpChars as cs = Ordering.lt := by
  intro as
  induction as with
  | nil =>
    intro bs cs h1 h2
    cases bs with
    | nil => exact h2
    | cons b bs =>
      cases cs with
      | nil => simp [cmpChars] at h2
      | cons c cs => simp [cmpChars]
  | cons a as ih =>
    intro bs cs h1 h2
    cases bs with
    | nil => simp [cmpChars] at h1
    | cons b bs =>
      cases cs with
      | nil => simp [cmpChars] at h2
      | cons c cs =>
        simp only [cmpChars] at h1 h2 ⊢
        by_cases hab : a.toNat < b.toNat
        · by_cases hbc : b.toNat < c.toNat
          · have : a.toNat < c.toNat := by omega
            simp [this]
          · by_cases hcb : c.toNat < b.toNat
            · simp [hbc, hcb] at h2
            · have hbceq : b = c := char_toNat_inj (by omega)
              subst hbceq
              simp [hab]
        · by_cases hba : b.toNat < a.toNat
          · simp [hab, hba] at h1
          · have habeq : a = b := char_toNat_inj (by omega)
            subst habeq
            simp only [hab, if_false, hba, if_false] at h1 ⊢
            by_cases hac : a.toNat < c.toNat
            · simp [hac]
            · by_cases hca : c.toNat < a.toNat
              · simp [hac, hca] at h2
              · simp only [hac, if_false, hca, if_false] at h2 ⊢
                exact ih bs cs h1 h2

theorem strData_inj {s t : String} (h : s.data = t.data) : s = t := by
  cases s; cases t; cases h; rfl

theorem dateLt_iff_cmp {s t : String} : dateLt s t ↔ cmpChars s.data t.data = Ordering.lt :=
  Iff.rfl

theorem dateLe_iff {s t : String} : dateLe s t = true ↔ dateLt s t ∨ s = t := by
  unfold dateLe dateLt
  cases h : cmpChars s.data t.data with
  | lt => simp
  | eq => simp [strData_inj ((cmpChars_eq_iff s.data t.data).mp h)]
  | gt =>
    simp only [Bool.false_eq_true, false_iff]
    rintro (h2 | h2)
    · exact absurd h2 (by simp)
    · subst h2
      rw [(cmpChars_eq_iff s.data s.data).mpr rfl] at h
      exact absurd h (by simp)

theorem dateLe_refl (s : String) : dateLe s s = true := dateLe_iff.mpr (Or.inr rfl)

theorem dateLt_not_le {s t : String} (h : dateLt t s) : dateLe s t = false := by
  unfold dateLe
  rw [cmpChars_swap, dateLt_iff_cmp.mp h]
  rfl

theorem dateLe_total (s t : String) : dateLe s t = true ∨ dateLe t s = true := by
  unfold dateLe
  rw [cmpChars_swap s.data t.data]
  cases cmpChars s.data t.data <;> simp [Ordering.swap]

theorem dateLt_trans {s t u : String} (h1 : dateLt s t) (h2 : dateLt t u) : dateLt s u :=
  cmpChars_lt_trans s.data t.data u.data h1 h2

theorem dateLe_trans {s t u : String} (h1 : dateLe s t = true) (h2 : dateLe t u = true) :
    dateLe s u = true := by
  rcases dateLe_iff.mp h1 with h1 | h1
  · rcases dateLe_iff.mp h2 with h2 | h2
    · exact dateLe_iff.mpr (Or.inl (dateLt_trans h1 h2))
    · subst h2; exact dateLe_iff.mpr (Or.inl h1)
  · subst h1; exact h2

instance : IsTotal Expense expBefore := by
  constructor
  intro x y
  cases h : cmpChars x.date.data y.date.data with
  | lt => exact Or.inr (Or.inl h)
  | eq =>
    have hd : x.date = y.date := strData_inj ((cmpChars_eq_iff _ _).mp h)
    rcases Nat.le_total y.id x.id with hle | hle
    · exact Or.inl (Or.inr ⟨hd, hle⟩)
    · exact Or.inr (Or.inr ⟨hd.symm, hle⟩)
  | gt =>
    refine Or.inl (Or.inl ?_)
    show cmpChars y.date.data x.date.data = Ordering.lt
    rw [cmpChars_swap, h]
    rfl

instance : IsTrans Expense expBefore := by
  constructor
  intro x y z hxy hyz
  rcases hxy with hxy | ⟨hd1, hi1⟩
  · rcases hyz with hyz | ⟨hd2, hi2⟩
    · exact Or.inl (dateLt_trans hyz hxy)
    · exact Or.inl (hd2 ▸ hxy)
  · rcases hyz with hyz | ⟨hd2, hi2⟩
    · exact Or.inl (hd1 ▸ hyz)
    · exact Or.inr ⟨hd1.trans hd2, Nat.le_trans hi2 hi1⟩

instance : IsTotal SummaryRow gBefore := by
  constructor
  intro g h
  exact (Int.le_total h.total_amount g.total_amount).elim Or.inl Or.inr

instance : IsTrans SummaryRow gBefore := by
  constructor
  intro a b c h1 h2
  exact Int.le_trans h2 h1

/-! ### Facts about sorting and grouping -/

theorem sortExpenses_perm (l : List Expense) : List.Perm (sortExpenses l) l :=
  List.perm_insertionSort expBefore l

theorem mem_sortExpenses {l : List Expense} {r : Expense} : r ∈ sortExpenses l ↔ r ∈ l :=
  (sortExpenses_perm l).mem_iff

theorem sortExpenses_sorted (l : List Expense) : (sortExpenses l).Pairwise expBefore :=
  List.sorted_insertionSort expBefore l

theorem mem_rowsInRange {s : Store} {a b : String} {r : Expense} :
    r ∈ rowsInRange s a b ↔ r ∈ s.rows ∧ dateLe a r.date = true ∧ dateLe r.date b = true := by
  simp [rowsInRange, List.mem_filter, inRange, Bool.and_eq_true]

theorem sortGroups_perm (l : List SummaryRow) : List.Perm (sortGroups l) l :=
  List.perm_insertionSort gBefore l

theorem sortGroups_sorted (l : List SummaryRow) : (sortGroups l).Pairwise gBefore :=
  List.sorted_insertionSort gBefore l

theorem summaryGroups_map_category (ms : List Expense) :
    (summaryGroups ms).map SummaryRow.category = (ms.map Expense.category).dedup := by
  unfold summaryGroups
  rw [List.map_map]
  have hcomp : (SummaryRow.category ∘ groupFor ms) = id := rfl
  rw [hcomp, List.map_id]

theorem mem_summaryGroups_ex {ms : List Expense} {g : SummaryRow} :
    g ∈ summaryGroups ms ↔ ∃ c, c ∈ ms.map Expense.category ∧ g = groupFor ms c := by
  unfold summaryGroups
  rw [List.mem_map]
  constructor
  · rintro ⟨c, hc, hgc⟩
    exact ⟨c, (List.mem_dedup).mp hc, hgc.symm⟩
  · rintro ⟨c, hc, hgc⟩
    exact ⟨c, (List.mem_dedup).mpr hc, hgc.symm⟩

theorem addError_is_error (e : String) : ∃ m, addError e = AddResponse.error m := by
  unfold addError
  split
  · exact ⟨_, rfl⟩
  · exact ⟨_, rfl⟩

theorem listStartsWith_app : ∀ xs ys : List Char, listStartsWith xs (xs ++ ys) = true
  | [], _ => rfl
  | a :: as, ys => by simp [listStartsWith, listStartsWith_app as ys]

theorem catFilter_not_truthy {cat : Option String} (h : categoryTruthy cat = false)
    (l : List Expense) : catFilter cat l = l := by
  simp [catFilter, h]

theorem catFilter_truthy {c0 : String} (h : c0 ≠ "") (l : List Expense) :
    catFilter (some c0) l = l.filter (fun r => r.category == c0) := by
  simp [catFilter, categoryTruthy, h]

theorem catFilter_all_c0 {c0 : String} (l : List Expense) {r : Expense}
    (hr : r ∈ catFilter (some c0) l) (h : c0 ≠ "") : r.category = c0 := by
  rw [catFilter_truthy h] at hr
  have := (List.mem_filter.mp hr).2
  simpa using this

theorem catFilter_filter_eq {cat : Option String} (l : List Expense) {c : String}
    (hc : c ∈ (catFilter cat l).map Expense.category) :
    (catFilter cat l).filter (fun r => r.category == c) = l.filter (fun r => r.category == c) := by
  by_cases ht : categoryTruthy cat = true
  · match cat with
    | none => simp [categoryTruthy] at ht
    | some c0 =>
      have h0 : c0 ≠ "" := by
        intro hcontra
        simp [categoryTruthy, hcontra] at ht
      rcases List.mem_map.mp hc with ⟨r, hr, hrc⟩
      have hc0 : c = c0 := hrc ▸ catFilter_all_c0 l hr h0
      subst hc0
      rw [catFilter_truthy h0]
      rw [List.filter_filter]
      apply List.filter_congr
      intro x _
      simp [Bool.and_self]
  · rw [catFilter_not_truthy (by simpa using ht)]

/-! ### Claim theorems -/

/-- C1: the SQL statement text `summarize` builds is independent of the
category value: for any two non-empty categories the text is identical (the
value goes only into the bound-parameter list), and the with-category text
differs from the no-category text only by the single clause
" AND category = ?" inserted between the fixed base and the fixed
GROUP BY / ORDER BY tail. -/
theorem summarize_stmt_text_fixed (a b c1 c2 : String) (h1 : c1 ≠ "") (h2 : c2 ≠ "") :
    (summarizeStmt a b (some c1)).1 = (summarizeStmt a b (some c2)).1
    ∧ (summarizeStmt a b (some c1)).2 = [a, b, c1]
    ∧ (summarizeStmt a b none).1 = summarizeBase ++ groupOrderClause
    ∧ (summarizeStmt a b (some c1)).1 = summarizeBase ++ " AND category = ?" ++ groupOrderClause
    ∧ (summarizeStmt a b none).2 = [a, b] := by
  simp [summarizeStmt, categoryTruthy, h1, h2, categoryClause]

theorem summarize_stmt_text_fixed_witness :
    ("Food" : String) ≠ "" ∧ ("Travel" : String) ≠ ""
    ∧ ((summarizeStmt "2024-01-01" "2024-12-31" (some "Food")).1
          = (summarizeStmt "2024-01-01" "2024-12-31" (some "Travel")).1
       ∧ (summarizeStmt "2024-01-01" "2024-12-31" (some "Food")).2
          = ["2024-01-01", "2024-12-31", "Food"]
       ∧ (summarizeStmt "2024-01-01" "2024-12-31" none).1 = summarizeBase ++ groupOrderClause
       ∧ (summarizeStmt "2024-01-01" "2024-12-31" (some "Food")).1
          = summarizeBase ++ " AND category = ?" ++ groupOrderClause
       ∧ (summarizeStmt "2024-01-01" "2024-12-31" none).2 = ["2024-01-01", "2024-12-31"]) :=
  ⟨by decide, by decide,
   summarize_stmt_text_fixed "2024-01-01" "2024-12-31" "Food" "Travel" (by decide) (by decide)⟩

/-- C10: the schema's NOT NULL constraints reject only missing (NULL) values,
so a call with empty-string date and category succeeds: it appends a row and
returns a success payload with the new id — whereas a NULL date is rejected
with an error. -/
theorem add_expense_accepts_empty (s : Store) (amt : Int) :
    (add_expense s (some "") (some amt) (some "") "" "" none).2
      = AddResponse.success s.nextId "Expense added successfully"
    ∧ (⟨s.nextId, "", amt, "", "", ""⟩ : Expense)
        ∈ (add_expense s (some "") (some amt) (some "") "" "" none).1.rows
    ∧ (add_expense s none (some amt) (some "") "" "" none).2
      = AddResponse.error ("Database error: " ++ "NOT NULL constraint failed: expenses.date") := by
  refine ⟨rfl, ?_, rfl⟩
  show (⟨s.nextId, "", amt, "", "", ""⟩ : Expense) ∈ s.rows ++ [⟨s.nextId, "", amt, "", "", ""⟩]
  exact List.mem_append_right _ (List.mem_singleton_self _)

/-- C9: each of add_expense, list_expenses and summarize returns a structured
value for every input: an error object with a message on any underlying
storage failure, and the operation's success payload otherwise; being total
functions of the explicit exception channel, they never propagate a raw
exception. -/
theorem tools_return_structured (s : Store) (d : Option String) (am : Option Int)
    (c : Option String) (sub nt a b : String) (oc : Option String) (e : String) :
    (∃ m, (add_expense s d am c sub nt (some e)).2 = AddResponse.error m)
    ∧ (∃ m, list_expenses s a b (some e) = ListResponse.error m)
    ∧ (∃ m, summarize s a b oc (some e) = SummarizeResponse.error m)
    ∧ ((∃ i m, (add_expense s d am c sub nt none).2 = AddResponse.success i m)
       ∨ (∃ m, (add_expense s d am c sub nt none).2 = AddResponse.error m))
    ∧ (∃ rs, list_expenses s a b none = ListResponse.items rs)
    ∧ (∃ gs, summarize s a b oc none = SummarizeResponse.groups gs) := by
  refine ⟨?_, ⟨_, rfl⟩, ⟨_, rfl⟩, ?_, ⟨_, rfl⟩, ⟨_, rfl⟩⟩
  · show ∃ m, addError e = AddResponse.error m
    exact addError_is_error e
  · match d, am, c with
    | some d, some am, some c => exact Or.inl ⟨_, _, rfl⟩
    | none, _, _ => exact Or.inr (addError_is_error "NOT NULL constraint failed: expenses.date")
    | some _, none, _ =>
      exact Or.inr (addError_is_error "NOT NULL constraint failed: expenses.amount")
    | some _, some _, none =>
      exact Or.inr (addError_is_error "NOT NULL constraint failed: expenses.category")

/-- C4: a write failing because the store is read-only (SQLite raises
"attempt to write a readonly database") makes add_expense return the distinct
read-only error message; any other failure text yields the generic
"Database error: <description>", and the two messages are never equal. -/
theorem add_expense_readonly_distinct (s : Store) (d : Option String) (am : Option Int)
    (c : Option String) (sub nt : String) (e : String) (he : containsReadonly e = false) :
    (add_expense s d am c sub nt (some readonlyMsg)).2
      = AddResponse.error "Database is in read-only mode. Check file permissions."
    ∧ (add_expense s d am c sub nt (some e)).2
      = AddResponse.error ("Database error: " ++ e)
    ∧ "Database is in read-only mode. Check file permissions." ≠ "Database error: " ++ e := by
  refine ⟨rfl, ?_, ?_⟩
  · show addError e = AddResponse.error ("Database error: " ++ e)
    unfold addError
    rw [he]
    rfl
  · intro hcontra
    have h1 : listStartsWith ("Database error: ").data
        ("Database is in read-only mode. Check file permissions.").data = false := by decide
    rw [hcontra] at h1
    have h2 : ("Database error: " ++ e).data = ("Database error: ").data ++ e.data := rfl
    rw [h2, listStartsWith_app] at h1
    exact absurd h1 (by simp)

theorem add_expense_readonly_distinct_witness :
    containsReadonly "disk I/O error" = false
    ∧ ((add_expense ⟨1, [], 2⟩ (some "2024-01-01") (some 5) (some "Food") "" ""
          (some readonlyMsg)).2
        = AddResponse.error "Database is in read-only mode. Check file permissions."
       ∧ (add_expense ⟨1, [], 2⟩ (some "2024-01-01") (some 5) (some "Food") "" ""
            (some "disk I/O error")).2
          = AddResponse.error ("Database error: " ++ "disk I/O error")
       ∧ "Database is in read-only mode. Check file permissions."
          ≠ "Database error: " ++ "disk I/O error") :=
  ⟨by decide,
   add_expense_readonly_distinct ⟨1, [], 2⟩ (some "2024-01-01") (some 5) (some "Food") "" ""
     "disk I/O error" (by decide)⟩

/-- C5: the categories resource never fails the caller: readable file
contents are returned verbatim, an absent file yields the built-in
ten-category default document, and any other read failure yields a document
of the shape given by an "error" key with a message. -/
theorem categories_never_fails :
    (∀ s, categories (FsReadResult.readable s) = s)
    ∧ categories FsReadResult.missing
        = "\x7b\n  \"categories\": [\n    \"Food & Dining\",\n    \"Transportation\",\n    \"Shopping\",\n    \"Entertainment\",\n    \"Bills & Utilities\",\n    \"Healthcare\",\n    \"Travel\",\n    \"Education\",\n    \"Business\",\n    \"Other\"\n  ]\n\x7d"
    ∧ default_categories.length = 10
    ∧ (∀ e, ∃ m, categories (FsReadResult.failure e) = "\x7b\"error\": \"" ++ m ++ "\"\x7d") := by
  refine ⟨fun s => rfl, rfl, rfl, fun e => ⟨"Could not load categories: " ++ e, ?_⟩⟩
  apply strData_inj
  show ("\x7b\"error\": \"Could not load categories: ").data ++ (e.data ++ ("\"\x7d").data)
      = ("\x7b\"error\": \"").data ++ (("Could not load categories: ").data ++ (e.data ++ ("\"\x7d").data))
  rw [← List.append_assoc ("\x7b\"error\": \"").data]
  rfl

/-- C3 counterexample: the claim "running init_db a second time ... loses no
data — every expense row present before the call is still present, unchanged,
after the call" is false: a store holding a user expense with category "test"
(which add_expense accepts, categories being free-form) loses that row,
because the self-check runs DELETE FROM expenses WHERE category = 'test'. -/
theorem init_db_data_loss_cex :
    (⟨2, "2024-05-01", 7, "test", "", ""⟩ : Expense)
        ∈ (Store.mk 1 [⟨2, "2024-05-01", 7, "test", "", ""⟩] 3).rows
    ∧ (⟨2, "2024-05-01", 7, "test", "", ""⟩ : Expense)
        ∉ (init_db (Store.mk 1 [⟨2, "2024-05-01", 7, "test", "", ""⟩] 3)).rows := by
  decide

/-- C3 amended: init_db is idempotent on the schema — it creates the table
only when absent and a second run adds no duplicate schema object — and it
preserves, unchanged, every expense row whose category is not "test"; rows
with category "test" are deleted by the write-access self-check. -/
theorem init_db_idempotent_amended (s : Store) (r : Expense)
    (hr : r ∈ s.rows) (hc : r.category ≠ "test") :
    r ∈ (init_db s).rows
    ∧ (init_db s).tables = (if s.tables = 0 then 1 else s.tables)
    ∧ (init_db (init_db s)).tables = (init_db s).tables := by
  refine ⟨?_, rfl, ?_⟩
  · show r ∈ (s.rows ++ [Expense.mk s.nextId "2000-01-01" 0 "test" "" ""]).filter
        (fun x : Expense => !(x.category == "test"))
    rw [List.mem_filter]
    refine ⟨List.mem_append_left _ hr, ?_⟩
    simpa using hc
  · show (if (if s.tables = 0 then 1 else s.tables) = 0 then 1
        else if s.tables = 0 then 1 else s.tables) = (if s.tables = 0 then 1 else s.tables)
    by_cases h : s.tables = 0 <;> simp [h]

def sampleFoodRow : Expense := ⟨2, "2024-05-01", 7, "Food", "", ""⟩

def sampleFoodStore : Store := ⟨1, [sampleFoodRow], 3⟩

theorem init_db_idempotent_amended_witness :
    sampleFoodRow ∈ sampleFoodStore.rows
    ∧ sampleFoodRow.category ≠ "test"
    ∧ (sampleFoodRow ∈ (init_db sampleFoodStore).rows
       ∧ (init_db sampleFoodStore).tables
          = (if sampleFoodStore.tables = 0 then 1 else sampleFoodStore.tables)
       ∧ (init_db (init_db sampleFoodStore)).tables = (init_db sampleFoodStore).tables) :=
  ⟨by decide, by decide,
   init_db_idempotent_amended sampleFoodStore sampleFoodRow (by decide) (by decide)⟩

/-- C2: insert/read round-trip: adding a valid expense to an empty store and
then listing a range covering its date returns exactly the one inserted row,
carrying the id the insert returned and the input field values (the empty
string being what the tool passes for an omitted subcategory or note). -/
theorem add_then_list_roundtrip (s : Store) (d : String) (amt : Int) (c sub nt a b : String)
    (hempty : s.rows = []) (h1 : dateLe a d = true) (h2 : dateLe d b = true) :
    (add_expense s (some d) (some amt) (some c) sub nt none).2
      = AddResponse.success s.nextId "Expense added successfully"
    ∧ list_expenses (add_expense s (some d) (some amt) (some c) sub nt none).1 a b none
      = ListResponse.items [⟨s.nextId, d, amt, c, sub, nt⟩] := by
  refine ⟨rfl, ?_⟩
  show ListResponse.items (sortExpenses ((s.rows ++ [Expense.mk s.nextId d amt c sub nt]).filter
      (inRange a b))) = ListResponse.items [Expense.mk s.nextId d amt c sub nt]
  rw [hempty]
  have hfil : ([] ++ [Expense.mk s.nextId d amt c sub nt]).filter (inRange a b)
      = [Expense.mk s.nextId d amt c sub nt] := by
    simp [inRange, h1, h2]
  rw [hfil]
  rfl

theorem add_then_list_roundtrip_witness :
    (Store.mk 1 [] 2).rows = [] ∧ dateLe "2024-01-01" "2024-01-15" = true
    ∧ dateLe "2024-01-15" "2024-01-31" = true
    ∧ ((add_expense (Store.mk 1 [] 2) (some "2024-01-15") (some 42) (some "Food") "" "" none).2
        = AddResponse.success (Store.mk 1 [] 2).nextId "Expense added successfully"
       ∧ list_expenses
           (add_expense (Store.mk 1 [] 2) (some "2024-01-15") (some 42) (some "Food") "" "" none).1
           "2024-01-01" "2024-01-31" none
         = ListResponse.items [⟨(Store.mk 1 [] 2).nextId, "2024-01-15", 42, "Food", "", ""⟩]) :=
  ⟨rfl, by decide, by decide,
   add_then_list_roundtrip (Store.mk 1 [] 2) "2024-01-15" 42 "Food" "" "" "2024-01-01" "2024-01-31"
     rfl (by decide) (by decide)⟩

/-- C6: the sequence list_expenses returns is sorted by date descending with
ties on equal dates broken by id descending: for every earlier element x and
later element y, either y.date is lexicographically below x.date, or the two
dates are equal and y.id ≤ x.id. -/
theorem list_expenses_sorted (s : Store) (a b : String) (rs : List Expense)
    (h : list_expenses s a b none = ListResponse.items rs) :
    rs.Pairwise (fun x y => dateLt y.date x.date ∨ (x.date = y.date ∧ y.id ≤ x.id)) := by
  have h2 : ListResponse.items (sortExpenses (rowsInRange s a b)) = ListResponse.items rs := h
  injection h2 with h3
  rw [← h3]
  exact sortExpenses_sorted (rowsInRange s a b)

def orderSampleStore : Store :=
  ⟨1, [⟨1, "2024-01-01", 1, "Food", "", ""⟩, ⟨2, "2024-01-03", 2, "Food", "", ""⟩,
       ⟨3, "2024-01-02", 3, "Food", "", ""⟩], 4⟩

def orderSampleOut : List Expense :=
  [⟨2, "2024-01-03", 2, "Food", "", ""⟩, ⟨3, "2024-01-02", 3, "Food", "", ""⟩,
   ⟨1, "2024-01-01", 1, "Food", "", ""⟩]

theorem list_expenses_sorted_witness :
    list_expenses orderSampleStore "2024-01-01" "2024-01-03" none
      = ListResponse.items orderSampleOut
    ∧ orderSampleOut.Pairwise
        (fun x y => dateLt y.date x.date ∨ (x.date = y.date ∧ y.id ≤ x.id)) :=
  ⟨by decide,
   list_expenses_sorted orderSampleStore "2024-01-01" "2024-01-03" orderSampleOut (by decide)⟩

/-- C8: the date-range filter of list_expenses and summarize is inclusive on
both bounds under lexicographic string comparison: a stored row appears in
the listing iff start ≤ date and date ≤ end; a row dated exactly at either
bound is included, a row lexicographically below start or above end is
excluded, and summarize draws its groups from the same inclusive range. -/
theorem range_bounds_inclusive (s : Store) (a b : String) (rs : List Expense) (r : Expense)
    (h : list_expenses s a b none = ListResponse.items rs) :
    (r ∈ rs ↔ r ∈ s.rows ∧ dateLe a r.date = true ∧ dateLe r.date b = true)
    ∧ (r ∈ s.rows → r.date = a → dateLe a b = true → r ∈ rs)
    ∧ (r ∈ s.rows → r.date = b → dateLe a b = true → r ∈ rs)
    ∧ ((dateLt r.date a ∨ dateLt b r.date) → r ∉ rs)
    ∧ (∀ gs, summarize s a b none none = SummarizeResponse.groups gs →
        r ∈ s.rows → dateLe a r.date = true → dateLe r.date b = true →
        r.category ∈ gs.map SummaryRow.category) := by
  have h2 : ListResponse.items (sortExpenses (rowsInRange s a b)) = ListResponse.items rs := h
  injection h2 with h3
  subst h3
  have hmem : ∀ x : Expense, x ∈ sortExpenses (rowsInRange s a b) ↔
      x ∈ s.rows ∧ dateLe a x.date = true ∧ dateLe x.date b = true := by
    intro x
    rw [mem_sortExpenses, mem_rowsInRange]
  refine ⟨hmem r, ?_, ?_, ?_, ?_⟩
  · intro hr hda hab
    refine (hmem r).mpr ⟨hr, ?_, ?_⟩
    · rw [hda]; exact dateLe_refl a
    · rw [hda]; exact hab
  · intro hr hdb hab
    refine (hmem r).mpr ⟨hr, ?_, ?_⟩
    · rw [hdb]; exact hab
    · rw [hdb]; exact dateLe_refl b
  · rintro (hlt | hlt) hin
    · have hx := ((hmem r).mp hin).2.1
      rw [dateLt_not_le hlt] at hx
      exact absurd hx (by simp)
    · have hx := ((hmem r).mp hin).2.2
      rw [dateLt_not_le hlt] at hx
      exact absurd hx (by simp)
  · intro gs hgs hr hda hdb
    have h4 : SummarizeResponse.groups
        (sortGroups (summaryGroups (catFilter none (rowsInRange s a b))))
        = SummarizeResponse.groups gs := hgs
    injection h4 with h5
    rw [← h5]
    have hcf : catFilter none (rowsInRange s a b) = rowsInRange s a b := rfl
    rw [hcf]
    rw [((sortGroups_perm (summaryGroups (rowsInRange s a b))).map SummaryRow.category).mem_iff]
    rw [summaryGroups_map_category, List.mem_dedup, List.mem_map]
    exact ⟨r, mem_rowsInRange.mpr ⟨hr, hda, hdb⟩, rfl⟩

theorem range_bounds_inclusive_witness :
    list_expenses orderSampleStore "2024-01-01" "2024-01-03" none
      = ListResponse.items orderSampleOut
    ∧ (((⟨1, "2024-01-01", 1, "Food", "", ""⟩ : Expense) ∈ orderSampleOut ↔
          (⟨1, "2024-01-01", 1, "Food", "", ""⟩ : Expense) ∈ orderSampleStore.rows
          ∧ dateLe "2024-01-01" ("2024-01-01" : String) = true
          ∧ dateLe ("2024-01-01" : String) "2024-01-03" = true)
       ∧ ((⟨1, "2024-01-01", 1, "Food", "", ""⟩ : Expense) ∈ orderSampleStore.rows →
            (⟨1, "2024-01-01", 1, "Food", "", ""⟩ : Expense).date = "2024-01-01" →
            dateLe "2024-01-01" "2024-01-03" = true →
            (⟨1, "2024-01-01", 1, "Food", "", ""⟩ : Expense) ∈ orderSampleOut)
       ∧ ((⟨1, "2024-01-01", 1, "Food", "", ""⟩ : Expense) ∈ orderSampleStore.rows →
            (⟨1, "2024-01-01", 1, "Food", "", ""⟩ : Expense).date = "2024-01-03" →
            dateLe "2024-01-01" "2024-01-03" = true →
            (⟨1, "2024-01-01", 1, "Food", "", ""⟩ : Expense) ∈ orderSampleOut)
       ∧ ((dateLt (⟨1, "2024-01-01", 1, "Food", "", ""⟩ : Expense).date "2024-01-01"
             ∨ dateLt "2024-01-03" (⟨1, "2024-01-01", 1, "Food", "", ""⟩ : Expense).date) →
            (⟨1, "2024-01-01", 1, "Food", "", ""⟩ : Expense) ∉ orderSampleOut)
       ∧ (∀ gs, summarize orderSampleStore "2024-01-01" "2024-01-03" none none
              = SummarizeResponse.groups gs →
            (⟨1, "2024-01-01", 1, "Food", "", ""⟩ : Expense) ∈ orderSampleStore.rows →
            dateLe "2024-01-01" (⟨1, "2024-01-01", 1, "Food", "", ""⟩ : Expense).date = true →
            dateLe (⟨1, "2024-01-01", 1, "Food", "", ""⟩ : Expense).date "2024-01-03" = true →
            (⟨1, "2024-01-01", 1, "Food", "", ""⟩ : Expense).category
              ∈ gs.map SummaryRow.category)) :=
  ⟨by decide,
   range_bounds_inclusive orderSampleStore "2024-01-01" "2024-01-03" orderSampleOut
     ⟨1, "2024-01-01", 1, "Food", "", ""⟩ (by decide)⟩

/-- C7: summarize partitions the rows of the inclusive date range by
category: the group categories are pairwise distinct and are exactly the
categories of the matching rows; each group's total_amount is the sum of that
category's amounts and its count the number of such rows; the groups are
ordered by total_amount descending; and a non-empty category argument
restricts the output to that category's group, yielding the empty sequence
when no row matches. -/
theorem summarize_groups_correct (s : Store) (a b : String) (cat : Option String)
    (gs : List SummaryRow) (h : summarize s a b cat none = SummarizeResponse.groups gs) :
    (gs.map SummaryRow.category).Nodup
    ∧ (∀ g ∈ gs,
        g.total_amount
          = (((rowsInRange s a b).filter (fun x => x.category == g.category)).map
              Expense.amount).sum
        ∧ g.count = ((rowsInRange s a b).filter (fun x => x.category == g.category)).length)
    ∧ gs.Pairwise (fun g1 g2 => g2.total_amount ≤ g1.total_amount)
    ∧ (cat = none →
        ∀ c, c ∈ gs.map SummaryRow.category ↔ ∃ x ∈ rowsInRange s a b, x.category = c)
    ∧ (∀ c0, cat = some c0 → c0 ≠ "" →
        (∀ g ∈ gs, g.category = c0)
        ∧ ∀ c, c ∈ gs.map SummaryRow.category ↔
            c = c0 ∧ ∃ x ∈ rowsInRange s a b, x.category = c) := by
  have h2 : SummarizeResponse.groups
      (sortGroups (summaryGroups (catFilter cat (rowsInRange s a b))))
      = SummarizeResponse.groups gs := h
  injection h2 with h3
  subst h3
  have hperm : List.Perm (sortGroups (summaryGroups (catFilter cat (rowsInRange s a b))))
      (summaryGroups (catFilter cat (rowsInRange s a b))) := sortGroups_perm _
  refine ⟨?_, ?_, ?_, ?_, ?_⟩
  · rw [(hperm.map SummaryRow.category).nodup_iff, summaryGroups_map_category]
    exact List.nodup_dedup _
  · intro g hg
    rcases mem_summaryGroups_ex.mp (hperm.mem_iff.mp hg) with ⟨c, hcmem, hgc⟩
    subst hgc
    have hfe := @catFilter_filter_eq cat (rowsInRange s a b) c hcmem
    constructor
    · show (((catFilter cat (rowsInRange s a b)).filter
          (fun x => x.category == c)).map Expense.amount).sum
        = (((rowsInRange s a b).filter (fun x => x.category == c)).map Expense.amount).sum
      rw [hfe]
    · show ((catFilter cat (rowsInRange s a b)).filter (fun x => x.category == c)).length
        = ((rowsInRange s a b).filter (fun x => x.category == c)).length
      rw [hfe]
  · exact sortGroups_sorted _
  · intro hcat c
    subst hcat
    rw [(hperm.map SummaryRow.category).mem_iff, summaryGroups_map_category,
      List.mem_dedup, List.mem_map]
    exact Iff.rfl
  · intro c0 hcat hc0
    subst hcat
    constructor
    · intro g hg
      rcases mem_summaryGroups_ex.mp (hperm.mem_iff.mp hg) with ⟨c, hcmem, hgc⟩
      rcases List.mem_map.mp hcmem with ⟨x, hx, hxc⟩
      have hx0 : x.category = c0 := catFilter_all_c0 _ hx hc0
      rw [hgc]
      show c = c0
      rw [← hxc]
      exact hx0
    · intro c
      rw [(hperm.map SummaryRow.category).mem_iff, summaryGroups_map_category,
        List.mem_dedup, List.mem_map]
      constructor
      · rintro ⟨x, hx, hxc⟩
        have hx0 : x.category = c0 := catFilter_all_c0 _ hx hc0
        have hcc0 : c = c0 := by rw [← hxc]; exact hx0
        subst hcc0
        refine ⟨rfl, x, ?_, hxc⟩
        rw [catFilter_truthy hc0] at hx
        exact (List.mem_filter.mp hx).1
      · rintro ⟨hcc0, x, hx, hxc⟩
        subst hcc0
        refine ⟨x, ?_, hxc⟩
        rw [catFilter_truthy hc0, List.mem_filter]
        refine ⟨hx, ?_⟩
        simpa using hxc

def summarySampleStore : Store :=
  ⟨1, [⟨2, "2024-03-01", 10, "Food", "", ""⟩, ⟨3, "2024-03-02", 5, "Food", "", ""⟩,
       ⟨4, "2024-03-03", 20, "Travel", "", ""⟩], 5⟩

def summarySampleGroups : List SummaryRow := [⟨"Travel", 20, 1⟩, ⟨"Food", 15, 2⟩]

theorem summarize_groups_correct_witness :
    summarize summarySampleStore "2024-01-01" "2024-12-31" none none
      = SummarizeResponse.groups summarySampleGroups
    ∧ ((summarySampleGroups.map SummaryRow.category).Nodup
       ∧ (∀ g ∈ summarySampleGroups,
           g.total_amount
             = (((rowsInRange summarySampleStore "2024-01-01" "2024-12-31").filter
                 (fun x => x.category == g.category)).map Expense.amount).sum
           ∧ g.count = ((rowsInRange summarySampleStore "2024-01-01" "2024-12-31").filter
               (fun x => x.category == g.category)).length)
       ∧ summarySampleGroups.Pairwise (fun g1 g2 => g2.total_amount ≤ g1.total_amount)
       ∧ ((none : Option String) = none →
           ∀ c, c ∈ summarySampleGroups.map SummaryRow.category ↔
             ∃ x ∈ rowsInRange summarySampleStore "2024-01-01" "2024-12-31", x.category = c)
       ∧ (∀ c0, (none : Option String) = some c0 → c0 ≠ "" →
           (∀ g ∈ summarySampleGroups, g.category = c0)
           ∧ ∀ c, c ∈ summarySampleGroups.map SummaryRow.category ↔
               c = c0 ∧ ∃ x ∈ rowsInRange summarySampleStore "2024-01-01" "2024-12-31",
                 x.category = c)) :=
  ⟨by decide,
   summarize_groups_correct summarySampleStore "2024-01-01" "2024-12-31" none
     summarySampleGroups (by decide)⟩
